import Mathlib

/-!
Verification of the forward-mode automatic differentiation core of OpenCNN
(`src/cnn/autodiff/jet.h`).

The C++ header defines, for a scalar type `Dtype`, a fixed-length buffer
`ArrayWithOp<Dtype>` (a wrapped `std::vector`) and a dual number
`Jet<Dtype>` holding a value `val_` and a gradient `grad_`.  We embed both
shallowly: the buffer is a `List` of scalars, the scalar type is
instantiated at `Rat` (the tests use `float`/`double`; we model exact
arithmetic), and fallible operations — the `CHECK(...)` fatal shape
assertion, the bounds-checked `std::vector::at` (which throws
`std::out_of_range`), and the unchecked `operator[]` (undefined behaviour
out of range) — return `Except Fault` with a distinct `Fault` constructor
for each failure mode.

The elementary functions `exp`, `log`, `sqrt` of the scalar type are kept
abstract (parameters of the jet-level functions), exactly as the template
code defers to the overload set of `Dtype`.
-/

namespace OpenCNN

/-- The scalar type `Dtype` of the template, instantiated at `Rat`. -/
abbrev Dtype := Rat

/-- The observable failure modes of the header: `shapeMismatch` is the fatal
`CHECK(a.has_same_shape(b))` assertion; `indexError` is the
`std::out_of_range` thrown by `std::vector::at`; `ub` marks an access whose
behaviour the source leaves undefined (unchecked `operator[]` out of
range). -/
inductive Fault where
  | shapeMismatch
  | indexError
  | ub
deriving DecidableEq

/-- `ArrayWithOp::operator+` (jet.h 56-65): `CHECK(a.has_same_shape(b))`,
then `c[i] = a[i] + b[i]`. -/
def arrayAdd (a b : List Dtype) : Except Fault (List Dtype) :=
  if a.length = b.length then .ok (List.zipWith (· + ·) a b)
  else .error .shapeMismatch

/-- `ArrayWithOp::operator-` binary (jet.h 67-76): checked elementwise
subtraction `c[i] = a[i] - b[i]`. -/
def arraySub (a b : List Dtype) : Except Fault (List Dtype) :=
  if a.length = b.length then .ok (List.zipWith (· - ·) a b)
  else .error .shapeMismatch

/-- `ArrayWithOp::operator-` unary (jet.h 78-85): `c[i] = -a[i]`. -/
def arrayNeg (a : List Dtype) : List Dtype :=
  a.map (fun x => -x)

/-- `operator*(const ArrayWithOp&, double s)` (jet.h 87-94): `c[i] = a[i] * s`. -/
def arrayMulS (a : List Dtype) (s : Dtype) : List Dtype :=
  a.map (fun x => x * s)

/-- `operator*(double s, const ArrayWithOp&)` (jet.h 96-103): also computes
`c[i] = a[i] * s`. -/
def arraySMul (s : Dtype) (a : List Dtype) : List Dtype :=
  a.map (fun x => x * s)

/-- `operator/(const ArrayWithOp&, double s)` (jet.h 105-112): `c[i] = a[i] / s`. -/
def arrayDivS (a : List Dtype) (s : Dtype) : List Dtype :=
  a.map (fun x => x / s)

/-- `ArrayWithOp::at` (jet.h 49-50): `v_.at(i)`, bounds-checked; a negative
`int` index converts to a huge `size_t`, so any index outside
`[0, size)` throws `std::out_of_range`. -/
def arrayAt (a : List Dtype) (i : Int) : Except Fault Dtype :=
  if h : 0 ≤ i ∧ i.toNat < a.length then .ok (a.get ⟨i.toNat, h.2⟩)
  else .error .indexError

/-- `ArrayWithOp::operator[]` (jet.h 43-44): `return v_[i]` with no bounds
check; out of range the source's behaviour is undefined, which we record as
the distinguished `Fault.ub` rather than as an index error. -/
def arrayIx (a : List Dtype) (i : Int) : Except Fault Dtype :=
  if h : 0 ≤ i ∧ i.toNat < a.length then .ok (a.get ⟨i.toNat, h.2⟩)
  else .error .ub

/-- Write through `ArrayWithOp::at` used as an lvalue (`grad_.at(i) = d`):
bounds-checked, throws `std::out_of_range` when `i` is outside the buffer. -/
def arraySetAt (a : List Dtype) (i : Int) (x : Dtype) : Except Fault (List Dtype) :=
  if 0 ≤ i ∧ i.toNat < a.length then .ok (a.set i.toNat x)
  else .error .indexError

/-- `Jet<Dtype>` (jet.h 126-215): a value `val_` paired with a gradient
buffer `grad_`. -/
structure Jet where
  val_ : Dtype
  grad_ : List Dtype
deriving DecidableEq

/-- `Jet::has_same_shape` (jet.h 207-209): the gradient buffers have equal
length. -/
def Jet.hasSameShape (f g : Jet) : Prop :=
  f.grad_.length = g.grad_.length

instance (f g : Jet) : Decidable (f.hasSameShape g) :=
  inferInstanceAs (Decidable (_ = _))

/-- `Jet(Dim dim)` (jet.h 134): value 0, gradient all zero of length `dim`. -/
def jetDefault (dim : Nat) : Jet :=
  ⟨0, List.replicate dim 0⟩

/-- `Jet(Dim dim, const Dtype& val)` (jet.h 145): a constant — value set,
gradient all zero. -/
def jetConst (dim : Nat) (val : Dtype) : Jet :=
  ⟨val, List.replicate dim 0⟩

/-- `Jet(Dim dim, const Dtype& val, int i, Dtype derivative = 1)`
(jet.h 158-161): zero gradient of length `dim`, then `grad_.at(i) = derivative`
(bounds-checked write). -/
def jetVar (dim : Nat) (val : Dtype) (i : Int) (derivative : Dtype) : Except Fault Jet :=
  (arraySetAt (List.replicate dim 0) i derivative).map fun g => ⟨val, g⟩

/-- `Jet::set(const Dtype& val, int i, Dtype derivative = 1)` (jet.h 169-173).
The member body is `val_ = val; grad_.assign(grad_.size(), 0);
grad_.at(i) = derivative;` — but `ArrayWithOp` declares no `assign` and no
`size` member, so this member fails to compile the moment it is
instantiated.  We embed the documented intent of the member (its doc
comment, jet.h 163-168): keep the gradient length, refill it with zeros and
write `derivative` at position `i` through the checked accessor. -/
def jetSet (f : Jet) (val : Dtype) (i : Int) (derivative : Dtype) : Except Fault Jet :=
  (arraySetAt (List.replicate f.grad_.length 0) i derivative).map fun g => ⟨val, g⟩

/-- Unary `operator-(const Jet&)` (jet.h 228-234): `(-val, -grad)`. -/
def jetNeg (f : Jet) : Jet :=
  ⟨-f.val_, arrayNeg f.grad_⟩

/-- `operator+(const Jet&, Dtype s)` (jet.h 251-256): value increased by `s`,
gradient unchanged. -/
def jetAddS (f : Jet) (s : Dtype) : Jet :=
  ⟨f.val_ + s, f.grad_⟩

/-- `operator+(Dtype s, const Jet&)` (jet.h 268-273). -/
def jetSAdd (s : Dtype) (f : Jet) : Jet :=
  ⟨f.val_ + s, f.grad_⟩

/-- `operator-(const Jet&, Dtype s)` (jet.h 285-290). -/
def jetSubS (f : Jet) (s : Dtype) : Jet :=
  ⟨f.val_ - s, f.grad_⟩

/-- `operator-(Dtype s, const Jet&)` (jet.h 301-307): `(s - val, -grad)`. -/
def jetSSub (s : Dtype) (f : Jet) : Jet :=
  ⟨s - f.val_, arrayNeg f.grad_⟩

/-- `operator*(const Jet&, Dtype s)` (jet.h 318-324): `(val*s, grad*s)`. -/
def jetMulS (f : Jet) (s : Dtype) : Jet :=
  ⟨f.val_ * s, arrayMulS f.grad_ s⟩

/-- `operator*(Dtype s, const Jet&)` (jet.h 336-342): also `(val*s, grad*s)`. -/
def jetSMulJ (s : Dtype) (f : Jet) : Jet :=
  ⟨f.val_ * s, arrayMulS f.grad_ s⟩

/-- `operator/(const Jet&, Dtype s)` (jet.h 353-359): `(val/s, grad/s)`. -/
def jetDivS (f : Jet) (s : Dtype) : Jet :=
  ⟨f.val_ / s, arrayDivS f.grad_ s⟩

/-- `operator/(Dtype s, const Jet&)` (jet.h 381-387):
`(s/val, -s*grad/(val*val))`. -/
def jetSDiv (s : Dtype) (f : Jet) : Jet :=
  ⟨s / f.val_, arrayDivS (arraySMul (-s) f.grad_) (f.val_ * f.val_)⟩

/-- `operator+(const Jet&, const Jet&)` (jet.h 396-402): the gradient sum is
computed by the checked `ArrayWithOp` addition, so the whole operation
faults on a shape mismatch. -/
def jetAdd (f g : Jet) : Except Fault Jet :=
  (arrayAdd f.grad_ g.grad_).map fun gr => ⟨f.val_ + g.val_, gr⟩

/-- `operator-(const Jet&, const Jet&)` (jet.h 411-417). -/
def jetSub (f g : Jet) : Except Fault Jet :=
  (arraySub f.grad_ g.grad_).map fun gr => ⟨f.val_ - g.val_, gr⟩

/-- `operator*(const Jet&, const Jet&)` (jet.h 441-447):
`res.grad_ = f.val_ * g.grad_ + g.val_ * f.grad_`; the inner `ArrayWithOp`
addition performs the shape check. -/
def jetMul (f g : Jet) : Except Fault Jet :=
  (arrayAdd (arraySMul f.val_ g.grad_) (arraySMul g.val_ f.grad_)).map
    fun gr => ⟨f.val_ * g.val_, gr⟩

/-- `operator/(const Jet&, const Jet&)` (jet.h 473-479):
`res.grad_ = f.grad_ / g.val_ - (f.val_ * g.grad_) / (g.val_ * g.val_)`;
the inner `ArrayWithOp` subtraction performs the shape check. -/
def jetDiv (f g : Jet) : Except Fault Jet :=
  (arraySub (arrayDivS f.grad_ g.val_)
      (arrayDivS (arraySMul f.val_ g.grad_) (g.val_ * g.val_))).map
    fun gr => ⟨f.val_ / g.val_, gr⟩

/-- `operator==` (jet.h 491-495): `CHECK(f.has_same_shape(g))`, then compares
values only. -/
def jetEq (f g : Jet) : Except Fault Bool :=
  if f.grad_.length = g.grad_.length then .ok (decide (f.val_ = g.val_))
  else .error .shapeMismatch

/-- `operator!=` (jet.h 507-511): checked, compares values only. -/
def jetNe (f g : Jet) : Except Fault Bool :=
  if f.grad_.length = g.grad_.length then .ok (decide (f.val_ ≠ g.val_))
  else .error .shapeMismatch

/-- `operator<` (jet.h 523-527): checked, compares values only. -/
def jetLt (f g : Jet) : Except Fault Bool :=
  if f.grad_.length = g.grad_.length then .ok (decide (f.val_ < g.val_))
  else .error .shapeMismatch

/-- `operator<=` (jet.h 539-543): checked, compares values only. -/
def jetLe (f g : Jet) : Except Fault Bool :=
  if f.grad_.length = g.grad_.length then .ok (decide (f.val_ ≤ g.val_))
  else .error .shapeMismatch

/-- `operator>` (jet.h 555-558): `return f.val_ > g.val_;` — the only
comparison with no `CHECK`, so it never faults. -/
def jetGt (f g : Jet) : Except Fault Bool :=
  .ok (decide (g.val_ < f.val_))

/-- `operator>=` (jet.h 570-574): checked, compares values only. -/
def jetGe (f g : Jet) : Except Fault Bool :=
  if f.grad_.length = g.grad_.length then .ok (decide (g.val_ ≤ f.val_))
  else .error .shapeMismatch

/-- `max(const Jet&, const Jet&)` (jet.h 594-597): `(f < g) ? g : f`, where
`operator<` carries the shape check. -/
def jetMax (f g : Jet) : Except Fault Jet :=
  (jetLt f g).map fun b => if b then g else f

/-- `exp(const Jet&)` (jet.h 612-621): `s = exp(val)`, result `(s, s * grad)`;
the scalar `exp` of `Dtype` stays an abstract parameter `e`. -/
def jetExp (e : Dtype → Dtype) (f : Jet) : Jet :=
  ⟨e f.val_, arraySMul (e f.val_) f.grad_⟩

/-- `log(const Jet&)` (jet.h 636-644): `(log(val), grad / val)`; the scalar
`log` stays an abstract parameter `lg`. -/
def jetLog (lg : Dtype → Dtype) (f : Jet) : Jet :=
  ⟨lg f.val_, arrayDivS f.grad_ f.val_⟩

/-- `sqrt(const Jet&)` (jet.h 659-667): `(sqrt(val), grad / (2 * sqrt(val)))`;
the scalar `sqrt` stays an abstract parameter `sq`. -/
def jetSqrt (sq : Dtype → Dtype) (f : Jet) : Jet :=
  ⟨sq f.val_, arrayDivS f.grad_ (2 * sq f.val_)⟩

/-- Pointwise form of the gradient produced by `jetMul`: the checked sum of
the two scaled buffers is the zipWith of the product-rule formula. -/
theorem mul_grad_zip (x y : Dtype) :
    ∀ (l1 l2 : List Dtype),
      List.zipWith (· + ·) (l2.map (fun t => t * x)) (l1.map (fun t => t * y)) =
        List.zipWith (fun gx gy => x * gy + y * gx) l1 l2
  | [], [] => rfl
  | [], _ :: _ => rfl
  | _ :: _, [] => rfl
  | a :: l1, b :: l2 => by
    simp only [List.map_cons, List.zipWith_cons_cons, mul_grad_zip x y l1 l2]
    rw [mul_comm b x, mul_comm a y]

/-- C1: for jets `f = (x, gx)` and `g = (y, gy)` of equal dimension, the
product succeeds with value `x*y` and gradient componentwise
`x*gy + y*gx` (product rule). -/
theorem jetMul_product_rule (f g : Jet) (h : f.grad_.length = g.grad_.length) :
    jetMul f g = Except.ok
      ⟨f.val_ * g.val_,
        List.zipWith (fun gx gy => f.val_ * gy + g.val_ * gx) f.grad_ g.grad_⟩ := by
  unfold jetMul arrayAdd arraySMul
  rw [if_pos (by simp [h])]
  simp only [Except.map]
  rw [mul_grad_zip]

/-- Pointwise form of the gradient produced by `jetDiv`: the checked
difference of the two scaled buffers is the zipWith of the quotient-rule
formula. -/
theorem div_grad_zip (x y : Dtype) :
    ∀ (l1 l2 : List Dtype),
      List.zipWith (· - ·) (l1.map (fun t => t / y))
          ((l2.map (fun t => t * x)).map (fun t => t / (y * y))) =
        List.zipWith (fun gx gy => gx / y - x * gy / y ^ 2) l1 l2
  | [], [] => rfl
  | [], _ :: _ => rfl
  | _ :: _, [] => rfl
  | a :: l1, b :: l2 => by
    simp only [List.map_cons, List.zipWith_cons_cons, div_grad_zip x y l1 l2]
    rw [pow_two y, mul_comm b x]

/-- C2: for jets `f = (x, gx)` and `g = (y, gy)` of equal dimension, with the
caller precondition `y ≠ 0`, the quotient succeeds with value `x/y` and
gradient componentwise `gx/y - x*gy/y^2` (quotient rule). -/
theorem jetDiv_quotient_rule (f g : Jet) (h : f.grad_.length = g.grad_.length)
    (hy : g.val_ ≠ 0) :
    jetDiv f g = Except.ok
      ⟨f.val_ / g.val_,
        List.zipWith (fun gx gy => gx / g.val_ - f.val_ * gy / g.val_ ^ 2)
          f.grad_ g.grad_⟩ := by
  unfold jetDiv arraySub arrayDivS arraySMul
  rw [if_pos (by simp [h])]
  simp only [Except.map]
  rw [div_grad_zip]

/-- Witness for C2 at `f = (6, [1, 0])`, `g = (3, [0, 1])`. -/
theorem jetDiv_quotient_rule_witness :
    jetDiv ⟨6, [1, 0]⟩ ⟨3, [0, 1]⟩ = Except.ok ⟨2, [1 / 3, -(2 / 3)]⟩ := by
  rw [jetDiv_quotient_rule ⟨6, [1, 0]⟩ ⟨3, [0, 1]⟩ rfl (by norm_num)]
  norm_num [List.zipWith]

/-- C3: for every jet `f = (x, gx)` and every scalar `exp`, `log`, `sqrt`
(kept abstract, as the template defers to the overloads of `Dtype`), the
jet-level functions return value `e x`, `lg x`, `sq x` and gradients
`e x * gx`, `gx / x`, `gx / (2 * sq x)` componentwise; no domain check is
performed. -/
theorem jet_chain_rules (e lg sq : Dtype → Dtype) (f : Jet) :
    jetExp e f = ⟨e f.val_, f.grad_.map (fun t => e f.val_ * t)⟩ ∧
    jetLog lg f = ⟨lg f.val_, f.grad_.map (fun t => t / f.val_)⟩ ∧
    jetSqrt sq f = ⟨sq f.val_, f.grad_.map (fun t => t / (2 * sq f.val_))⟩ := by
  refine ⟨?_, rfl, rfl⟩
  simp only [jetExp, arraySMul, Jet.mk.injEq, true_and]
  exact List.map_congr_left (fun a _ => mul_comm a (e f.val_))

/-- Witness for C1 at `f = (3, [1, 0])`, `g = (5, [0, 1])`. -/
theorem jetMul_product_rule_witness :
    jetMul ⟨3, [1, 0]⟩ ⟨5, [0, 1]⟩ = Except.ok ⟨15, [5, 3]⟩ := by
  rw [jetMul_product_rule ⟨3, [1, 0]⟩ ⟨5, [0, 1]⟩ rfl]
  norm_num [List.zipWith]

/-- C4: each jet-jet arithmetic operation propagates the fatal shape check of
the underlying `ArrayWithOp` operation — unequal gradient lengths always
fault, never a truncated or padded result, and with equal lengths the fault
branch is unreachable (a result is always produced). -/
theorem jet_binary_shape_policy (f g : Jet) :
    (f.grad_.length ≠ g.grad_.length →
      jetAdd f g = Except.error Fault.shapeMismatch ∧
      jetSub f g = Except.error Fault.shapeMismatch ∧
      jetMul f g = Except.error Fault.shapeMismatch ∧
      jetDiv f g = Except.error Fault.shapeMismatch) ∧
    (f.grad_.length = g.grad_.length →
      (∃ r, jetAdd f g = Except.ok r) ∧ (∃ r, jetSub f g = Except.ok r) ∧
      (∃ r, jetMul f g = Except.ok r) ∧ (∃ r, jetDiv f g = Except.ok r)) := by
  constructor
  · intro h
    refine ⟨?_, ?_, ?_, ?_⟩
    · unfold jetAdd arrayAdd
      rw [if_neg h]
      rfl
    · unfold jetSub arraySub
      rw [if_neg h]
      rfl
    · unfold jetMul arrayAdd arraySMul
      rw [if_neg (by simp [Ne.symm h])]
      rfl
    · unfold jetDiv arraySub arrayDivS arraySMul
      rw [if_neg (by simp [h])]
      rfl
  · intro h
    refine ⟨?_, ?_, ?_, ?_⟩
    · unfold jetAdd arrayAdd
      rw [if_pos h]
      exact ⟨_, rfl⟩
    · unfold jetSub arraySub
      rw [if_pos h]
      exact ⟨_, rfl⟩
    · unfold jetMul arrayAdd arraySMul
      rw [if_pos (by simp [h])]
      exact ⟨_, rfl⟩
    · unfold jetDiv arraySub arrayDivS arraySMul
      rw [if_pos (by simp [h])]
      exact ⟨_, rfl⟩

/-- Witness for C4: multiplying jets of gradient lengths 1 and 2 faults;
dividing jets of equal length succeeds. -/
theorem jet_binary_shape_policy_witness :
    jetMul ⟨1, [0]⟩ ⟨2, [0, 0]⟩ = Except.error Fault.shapeMismatch ∧
    (∃ r, jetDiv ⟨1, [0]⟩ ⟨2, [0]⟩ = Except.ok r) :=
  ⟨(((jet_binary_shape_policy ⟨1, [0]⟩ ⟨2, [0, 0]⟩).1 (by decide)).2.2).1,
   (((jet_binary_shape_policy ⟨1, [0]⟩ ⟨2, [0]⟩).2 rfl).2.2).2⟩

/-- C6: the comparisons `==`, `!=`, `<`, `<=`, `>=` carry the shape check and
fault on mismatched gradient lengths (and compare values only when the
lengths agree), while `>` performs no shape check: for every pair of jets,
whatever the lengths, it returns the value comparison without faulting. -/
theorem jet_comparisons_shape_policy (f g : Jet) :
    jetGt f g = Except.ok (decide (g.val_ < f.val_)) ∧
    (f.grad_.length ≠ g.grad_.length →
      jetEq f g = Except.error Fault.shapeMismatch ∧
      jetNe f g = Except.error Fault.shapeMismatch ∧
      jetLt f g = Except.error Fault.shapeMismatch ∧
      jetLe f g = Except.error Fault.shapeMismatch ∧
      jetGe f g = Except.error Fault.shapeMismatch) ∧
    (f.grad_.length = g.grad_.length →
      jetEq f g = Except.ok (decide (f.val_ = g.val_)) ∧
      jetNe f g = Except.ok (decide (f.val_ ≠ g.val_)) ∧
      jetLt f g = Except.ok (decide (f.val_ < g.val_)) ∧
      jetLe f g = Except.ok (decide (f.val_ ≤ g.val_)) ∧
      jetGe f g = Except.ok (decide (g.val_ ≤ f.val_))) := by
  refine ⟨rfl, ?_, ?_⟩
  · intro h
    exact ⟨by simp [jetEq, h], by simp [jetNe, h], by simp [jetLt, h],
      by simp [jetLe, h], by simp [jetGe, h]⟩
  · intro h
    exact ⟨by simp [jetEq, h], by simp [jetNe, h], by simp [jetLt, h],
      by simp [jetLe, h], by simp [jetGe, h]⟩

/-- Witness for C6: on jets of gradient lengths 1 and 2, `>` answers the value
comparison while `==` faults. -/
theorem jet_comparisons_shape_policy_witness :
    jetGt ⟨3, [0]⟩ ⟨1, [0, 0]⟩ = Except.ok true ∧
    jetEq ⟨3, [0]⟩ ⟨1, [0, 0]⟩ = Except.error Fault.shapeMismatch := by
  have h := jet_comparisons_shape_policy ⟨3, [0]⟩ ⟨1, [0, 0]⟩
  exact ⟨by rw [h.1]; rfl, (h.2.1 (by decide)).1⟩

/-- C8: for equal-dimension jets, `max(f, g)` returns the whole jet `g`
(value and gradient) when `f.val < g.val`, and the whole jet `f` otherwise —
in particular at a tie of values it returns `f`. -/
theorem jetMax_larger_operand (f g : Jet) (h : f.grad_.length = g.grad_.length) :
    (f.val_ < g.val_ → jetMax f g = Except.ok g) ∧
    (¬ f.val_ < g.val_ → jetMax f g = Except.ok f) ∧
    (f.val_ = g.val_ → jetMax f g = Except.ok f) := by
  have hlt : jetLt f g = .ok (decide (f.val_ < g.val_)) := by simp [jetLt, h]
  refine ⟨?_, ?_, ?_⟩
  · intro hv
    simp [jetMax, hlt, hv, Except.map]
  · intro hv
    simp [jetMax, hlt, hv, Except.map]
  · intro hv
    simp [jetMax, hlt, hv, Except.map]

/-- Witness for C8 at the spec's example `f = (3, [1, 0])`, `g = (5, [0, 1])`,
and at the tie `f = (3, [1, 0])`, `g = (3, [0, 1])`. -/
theorem jetMax_larger_operand_witness :
    jetMax ⟨3, [1, 0]⟩ ⟨5, [0, 1]⟩ = Except.ok ⟨5, [0, 1]⟩ ∧
    jetMax ⟨3, [1, 0]⟩ ⟨3, [0, 1]⟩ = Except.ok ⟨3, [1, 0]⟩ :=
  ⟨(jetMax_larger_operand ⟨3, [1, 0]⟩ ⟨5, [0, 1]⟩ rfl).1 (by norm_num),
   (jetMax_larger_operand ⟨3, [1, 0]⟩ ⟨3, [0, 1]⟩ rfl).2.2 rfl⟩

/-- C10: `max` on jets of unequal gradient length faults, because it is
defined through `operator<`, which carries the shape check. -/
theorem jetMax_shape_fault (f g : Jet) (h : f.grad_.length ≠ g.grad_.length) :
    jetMax f g = Except.error Fault.shapeMismatch := by
  simp [jetMax, jetLt, h, Except.map]

/-- Witness for C10 at gradient lengths 1 and 2. -/
theorem jetMax_shape_fault_witness :
    jetMax ⟨0, [0]⟩ ⟨0, [0, 0]⟩ = Except.error Fault.shapeMismatch :=
  jetMax_shape_fault ⟨0, [0]⟩ ⟨0, [0, 0]⟩ (by decide)

/-- C5: `set(value, i, derivative)` — in the embedded form of its documented
intent, since the member as written does not compile (see `jetSet`) — leaves
the jet with the given value and with the gradient equal to the basis vector
that is `derivative` at position `i` and zero elsewhere, with the gradient
length unchanged, whatever the prior gradient contents. -/
theorem jetSet_destructive_reset (f : Jet) (v d : Dtype) (i : Int)
    (h : 0 ≤ i ∧ i.toNat < f.grad_.length) :
    ∃ r, jetSet f v i d = Except.ok r ∧ r.val_ = v ∧
      r.grad_.length = f.grad_.length ∧
      ∀ j, (hj : j < r.grad_.length) →
        r.grad_.get ⟨j, hj⟩ = if j = i.toNat then d else 0 := by
  refine ⟨⟨v, (List.replicate f.grad_.length 0).set i.toNat d⟩, ?_, rfl, by simp, ?_⟩
  · unfold jetSet arraySetAt
    rw [if_pos (by simpa using h)]
    rfl
  · intro j hj
    simp only [List.length_set, List.length_replicate] at hj
    rw [List.get_eq_getElem, List.getElem_set]
    rcases eq_or_ne i.toNat j with hc | hc
    · simp [hc]
    · simp [hc, Ne.symm hc]

/-- Witness for C5 at `f = (7, [1, 2, 3])`, `set(9, 1, 4)`. -/
theorem jetSet_destructive_reset_witness :
    ∃ r, jetSet ⟨7, [1, 2, 3]⟩ 9 1 4 = Except.ok r ∧ r.val_ = 9 ∧
      r.grad_.length = 3 ∧
      ∀ j, (hj : j < r.grad_.length) →
        r.grad_.get ⟨j, hj⟩ = if j = 1 then 4 else 0 :=
  jetSet_destructive_reset ⟨7, [1, 2, 3]⟩ 9 4 1 (by decide)

/-- Counterexample for C7: reading through the unchecked
`ArrayWithOp::operator[]` out of range does not raise an index error — the
source performs no bounds comparison there and its behaviour is undefined. -/
theorem array_ix_no_index_error_cex :
    arrayIx [(1 : Dtype)] 1 = Except.error Fault.ub ∧
    arrayIx [(1 : Dtype)] 1 ≠ Except.error Fault.indexError := by
  refine ⟨rfl, fun hc => ?_⟩
  rw [show arrayIx [(1 : Dtype)] 1 = Except.error Fault.ub from rfl] at hc
  exact Fault.noConfusion (Except.error.inj hc)

/-- C7 (amended): access through the checked accessor `at` and through the
index argument of `variable()`/`set()` is bounds-checked — out of range it
fails immediately with an index error and never clamps, in range `at`
returns exactly the addressed element — while `operator[]` performs no
bounds check and its out-of-range behaviour is undefined rather than an
index error. -/
theorem checked_index_policy (a : List Dtype) (i : Int) (n : Nat) (v d : Dtype)
    (f : Jet) :
    (¬ (0 ≤ i ∧ i.toNat < a.length) →
      arrayAt a i = Except.error Fault.indexError ∧
      (∀ x, arraySetAt a i x = Except.error Fault.indexError) ∧
      arrayIx a i = Except.error Fault.ub) ∧
    ((0 ≤ i ∧ i.toNat < a.length) → arrayAt a i = Except.ok (a.getD i.toNat 0)) ∧
    (¬ (0 ≤ i ∧ i.toNat < n) → jetVar n v i d = Except.error Fault.indexError) ∧
    (¬ (0 ≤ i ∧ i.toNat < f.grad_.length) →
      jetSet f v i d = Except.error Fault.indexError) := by
  refine ⟨?_, ?_, ?_, ?_⟩
  · intro h
    refine ⟨?_, fun x => ?_, ?_⟩
    · unfold arrayAt
      rw [dif_neg h]
    · unfold arraySetAt
      rw [if_neg h]
    · unfold arrayIx
      rw [dif_neg h]
  · intro h
    unfold arrayAt
    rw [dif_pos h, List.getD_eq_getElem a 0 h.2]
    rfl
  · intro h
    unfold jetVar arraySetAt
    rw [if_neg (by simpa using h)]
    rfl
  · intro h
    unfold jetSet arraySetAt
    rw [if_neg (by simpa using h)]
    rfl

/-- Witness for C7's amended statement: `at` faults out of range and reads
exactly in range; a negative index into `variable()` faults. -/
theorem checked_index_policy_witness :
    arrayAt [(1 : Dtype)] 5 = Except.error Fault.indexError ∧
    arrayAt [(1 : Dtype)] 0 = Except.ok 1 ∧
    jetVar 2 3 (-1) 1 = Except.error Fault.indexError := by
  have h1 := checked_index_policy [(1 : Dtype)] 5 2 3 1 ⟨0, []⟩
  have h2 := checked_index_policy [(1 : Dtype)] 0 2 3 1 ⟨0, []⟩
  have h3 := checked_index_policy [(1 : Dtype)] (-1) 2 3 1 ⟨0, []⟩
  refine ⟨(h1.1 (by decide)).1, ?_, h3.2.2.1 (by decide)⟩
  rw [h2.2.1 (by decide)]
  rfl

/-- C9: every operation preserves the dimensionality invariant — the
constructors produce a gradient of the declared length, and every unary,
scalar, binary, comparison-based and elementary-function operation returns a
jet whose gradient length equals that of its (first) operand. -/
theorem jet_dimension_invariant (n : Nat) (v d s : Dtype) (i : Int) (f g r : Jet)
    (e : Dtype → Dtype) :
    (jetDefault n).grad_.length = n ∧
    (jetConst n v).grad_.length = n ∧
    (jetVar n v i d = Except.ok r → r.grad_.length = n) ∧
    (jetSet f v i d = Except.ok r → r.grad_.length = f.grad_.length) ∧
    (jetNeg f).grad_.length = f.grad_.length ∧
    (jetAddS f s).grad_.length = f.grad_.length ∧
    (jetSAdd s f).grad_.length = f.grad_.length ∧
    (jetSubS f s).grad_.length = f.grad_.length ∧
    (jetSSub s f).grad_.length = f.grad_.length ∧
    (jetMulS f s).grad_.length = f.grad_.length ∧
    (jetSMulJ s f).grad_.length = f.grad_.length ∧
    (jetDivS f s).grad_.length = f.grad_.length ∧
    (jetSDiv s f).grad_.length = f.grad_.length ∧
    (jetAdd f g = Except.ok r → r.grad_.length = f.grad_.length) ∧
    (jetSub f g = Except.ok r → r.grad_.length = f.grad_.length) ∧
    (jetMul f g = Except.ok r → r.grad_.length = f.grad_.length) ∧
    (jetDiv f g = Except.ok r → r.grad_.length = f.grad_.length) ∧
    (jetMax f g = Except.ok r → r.grad_.length = f.grad_.length) ∧
    (jetExp e f).grad_.length = f.grad_.length ∧
    (jetLog e f).grad_.length = f.grad_.length ∧
    (jetSqrt e f).grad_.length = f.grad_.length := by
  refine ⟨by simp [jetDefault], by simp [jetConst], ?_, ?_,
    by simp [jetNeg, arrayNeg], rfl, rfl, rfl,
    by simp [jetSSub, arrayNeg], by simp [jetMulS, arrayMulS],
    by simp [jetSMulJ, arrayMulS], by simp [jetDivS, arrayDivS],
    by simp [jetSDiv, arrayDivS, arraySMul], ?_, ?_, ?_, ?_, ?_,
    by simp [jetExp, arraySMul], by simp [jetLog, arrayDivS],
    by simp [jetSqrt, arrayDivS]⟩
  · intro hr
    unfold jetVar arraySetAt at hr
    by_cases hc : 0 ≤ i ∧ i.toNat < (List.replicate n (0 : Dtype)).length
    · rw [if_pos hc] at hr
      simp only [Except.map, Except.ok.injEq] at hr
      rw [← hr]
      simp
    · rw [if_neg hc] at hr
      simp [Except.map] at hr
  · intro hr
    unfold jetSet arraySetAt at hr
    by_cases hc : 0 ≤ i ∧ i.toNat < (List.replicate f.grad_.length (0 : Dtype)).length
    · rw [if_pos hc] at hr
      simp only [Except.map, Except.ok.injEq] at hr
      rw [← hr]
      simp
    · rw [if_neg hc] at hr
      simp [Except.map] at hr
  · intro hr
    unfold jetAdd arrayAdd at hr
    by_cases hc : f.grad_.length = g.grad_.length
    · rw [if_pos hc] at hr
      simp only [Except.map, Except.ok.injEq] at hr
      rw [← hr]
      simp [hc]
    · rw [if_neg hc] at hr
      simp [Except.map] at hr
  · intro hr
    unfold jetSub arraySub at hr
    by_cases hc : f.grad_.length = g.grad_.length
    · rw [if_pos hc] at hr
      simp only [Except.map, Except.ok.injEq] at hr
      rw [← hr]
      simp [hc]
    · rw [if_neg hc] at hr
      simp [Except.map] at hr
  · intro hr
    unfold jetMul arrayAdd arraySMul at hr
    by_cases hc : f.grad_.length = g.grad_.length
    · rw [if_pos (by simp [hc])] at hr
      simp only [Except.map, Except.ok.injEq] at hr
      rw [← hr]
      simp [hc]
    · rw [if_neg (by simp only [List.length_map]; exact Ne.symm hc)] at hr
      simp [Except.map] at hr
  · intro hr
    unfold jetDiv arraySub arrayDivS arraySMul at hr
    by_cases hc : f.grad_.length = g.grad_.length
    · rw [if_pos (by simp [hc])] at hr
      simp only [Except.map, Except.ok.injEq] at hr
      rw [← hr]
      simp [hc]
    · rw [if_neg (by simp only [List.length_map]; exact hc)] at hr
      simp [Except.map] at hr
  · intro hr
    unfold jetMax jetLt at hr
    by_cases hc : f.grad_.length = g.grad_.length
    · rw [if_pos hc] at hr
      simp only [Except.map, Except.ok.injEq] at hr
      rw [← hr]
      by_cases hv : f.val_ < g.val_ <;> simp [hv, hc]
    · rw [if_neg hc] at hr
      simp [Except.map] at hr

/-- Witness for C9: the declared dimension 2 is carried by the constructor,
by `variable()` and by a jet-jet sum. -/
theorem jet_dimension_invariant_witness :
    (jetDefault 2).grad_.length = 2 ∧
    (⟨3, [1, 0]⟩ : Jet).grad_.length = 2 ∧
    (⟨3, [1, 1]⟩ : Jet).grad_.length = 2 := by
  have h1 := jet_dimension_invariant 2 3 1 2 0 ⟨1, [1, 0]⟩ ⟨2, [0, 1]⟩ ⟨3, [1, 0]⟩ id
  have h2 := jet_dimension_invariant 2 3 1 2 0 ⟨1, [1, 0]⟩ ⟨2, [0, 1]⟩ ⟨3, [1, 1]⟩ id
  exact ⟨h1.1, h1.2.2.1 rfl,
    h2.2.2.2.2.2.2.2.2.2.2.2.2.2.1
      (by norm_num [jetAdd, arrayAdd, Except.map, List.zipWith])⟩

end OpenCNN
